import Mathlib

/-!
Verification of the data-loading and query layer of the Food Waste Management
dashboard (streamlit_app.py). The persistent SQLite store is embedded as an
association list from table names to tables; a table is a column-name list
together with rows, each row an ordered field-to-value mapping, mirroring a
pandas DataFrame written by df.to_sql. External effects (pd.read_csv on a
concrete file, sqlite statement execution) are embedded as values of Except:
a source file carries the outcome that parsing plus writing its content
produces, and each gateway call records the connection events it performs.
-/

namespace FoodWaste

/-- A scalar stored in a table cell: SQLite NULL, INTEGER or TEXT
(the value kinds this app actually reads and writes). -/
inductive Value where
  | null : Value
  | int : Int → Value
  | str : String → Value
  deriving DecidableEq, Repr

/-- A row as an ordered field-to-value mapping. -/
abbrev Row := List (String × Value)

/-- A materialized table: its schema (column names, in order) and its rows.
This models both a pandas DataFrame and a SQLite table. -/
structure Table where
  cols : List String
  rows : List Row
  deriving DecidableEq, Repr

/-- The persistent store: table name to table, as written by df.to_sql.
An absent database file is the empty store. -/
abbrev Store := List (String × Table)

/-- First value bound to column c in a row. -/
def rowGet : Row → String → Option Value
  | [], _ => none
  | (k, v) :: rest, c => if k = c then some v else rowGet rest c

/-- Overwrite every field named c with value v (SQL UPDATE ... SET c = v
on a single row). -/
def rowSet : Row → String → Value → Row
  | [], _, _ => []
  | (k, w) :: rest, c, v => (if k = c then (k, v) else (k, w)) :: rowSet rest c v

/-- Look a table up by name. -/
def storeGet (tbl : String) : Store → Option Table
  | [] => none
  | (n, t) :: rest => if n = tbl then some t else storeGet tbl rest

/-- Write a table under a name, replacing any existing table of that name
entirely (df.to_sql with if_exists = replace). -/
def storePut (tbl : String) (t : Table) : Store → Store
  | [] => [(tbl, t)]
  | (n, u) :: rest => if n = tbl then (tbl, t) :: rest else (n, u) :: storePut tbl t rest

/-- Names of the tables present in the store, in store order
(inspect_db reads these from sqlite_master). -/
def storeTables (s : Store) : List String :=
  s.map (fun p => p.1)

/-- inspect_db: the table names of the store; a missing database file
yields the empty list (modelled by the empty store). -/
def inspect_db (s : Store) : List String :=
  storeTables s

/-- Python str.lower on a filename: lowercase character by character. -/
def strToLower (s : String) : String :=
  String.mk (s.toList.map Char.toLower)

/-- Whether pat occurs as a contiguous run inside a character list. -/
def isInfixChars (pat : List Char) : List Char → Bool
  | [] => pat.isEmpty
  | c :: rest => pat.isPrefixOf (c :: rest) || isInfixChars pat rest

/-- Substring containment, as the Python `pat in s` test. -/
def strContains (s pat : String) : Bool :=
  isInfixChars pat.toList s.toList

/-- Leading dots of a character list (os.path.splitext ignores them). -/
def leadingDots (cs : List Char) : List Char :=
  cs.takeWhile (fun c => c = '.')

/-- os.path.splitext(f)[0]: the filename with its extension (the part from
the last dot) removed; leading dots do not start an extension. -/
def splitextStem (f : String) : String :=
  let cs := f.toList
  let lead := leadingDots cs
  let rest := cs.drop lead.length
  if rest.contains '.' then
    String.mk (lead ++ (((rest.reverse.dropWhile (fun c => c ≠ '.')).drop 1).reverse))
  else
    f

/-- The filename-to-table heuristic of create_db_from_csvs: substring tests
on the lowercased filename, in source order (food_list first), with the
filename stem as fallback. -/
def inferTable (f : String) : String :=
  let name := strToLower f
  if strContains name "food_list" then "food_listings"
  else if strContains name "provider" then "providers"
  else if strContains name "receiver" then "receivers"
  else if strContains name "claim" then "claims"
  else splitextStem f

/-- A discovered source file: its name and the outcome that pd.read_csv
followed by df.to_sql produces for its content (ok with the parsed table,
or the raised error message). -/
structure CSVFile where
  name : String
  data : Except String Table
  deriving Repr

/-- Result of create_db_from_csvs: the (False, msg) outcomes and the
(True, loaded) outcome, where loaded lists (filename, table, row count). -/
inductive LoadOutcome where
  | noCsvs : LoadOutcome
  | failed : String → String → LoadOutcome
  | ok : List (String × String × Nat) → LoadOutcome
  deriving DecidableEq, Repr

/-- The per-file loop of create_db_from_csvs: infer the table name, parse
and write; on the first failure close the connection and return naming the
failing file, leaving all earlier writes in place. -/
def loadFiles : List CSVFile → Store → List (String × String × Nat) → LoadOutcome × Store
  | [], store, loaded => (LoadOutcome.ok loaded.reverse, store)
  | f :: rest, store, loaded =>
    let tbl := inferTable f.name
    match f.data with
    | Except.ok df => loadFiles rest (storePut tbl df store) ((f.name, tbl, df.rows.length) :: loaded)
    | Except.error e => (LoadOutcome.failed f.name e, store)

/-- create_db_from_csvs, with the sorted CSV listing that glob returns
supplied as the csvs argument. -/
def create_db_from_csvs (csvs : List CSVFile) (store : Store) : LoadOutcome × Store :=
  if csvs.isEmpty then (LoadOutcome.noCsvs, store)
  else loadFiles csvs store []

/-- The effect of the successful writes of a file list, in order: the store
after load has processed exactly these files (files whose data errored
contribute nothing; the loop never reaches that branch under the theorems
that use this). -/
def applyOkWrites (fs : List CSVFile) (store : Store) : Store :=
  fs.foldl
    (fun s f =>
      match f.data with
      | Except.ok df => storePut (inferTable f.name) df s
      | Except.error _ => s)
    store

/-- The fixed set of required tables of ensure_data. -/
def required : List String :=
  ["providers", "receivers", "food_listings", "claims"]

/-- Structured result of ensure_data; each constructor carries exactly the
data interpolated into the corresponding Python message, so missingTables
holds the set named by the unready message. -/
inductive EnsureOutcome where
  | readyPresent : EnsureOutcome
  | readyLoaded : List (String × String × Nat) → EnsureOutcome
  | loadFailed : LoadOutcome → EnsureOutcome
  | missingTables : List String → EnsureOutcome
  deriving DecidableEq, Repr

/-- ensure_data: ready when all required tables are present; otherwise try
the CSV load when CSV files exist; otherwise refuse, naming the missing
tables. -/
def ensure_data (csvs : List CSVFile) (store : Store) : EnsureOutcome × Store :=
  let tables := inspect_db store
  if required.all (fun t => tables.contains t) then
    (EnsureOutcome.readyPresent, store)
  else if csvs.isEmpty = false then
    match create_db_from_csvs csvs store with
    | (LoadOutcome.ok info, s) => (EnsureOutcome.readyLoaded info, s)
    | (out, s) => (EnsureOutcome.loadFailed out, s)
  else
    (EnsureOutcome.missingTables (required.filter (fun t => !(tables.contains t))), store)

/-- Connection events a gateway call performs on the store file, in order. -/
inductive ConnEvent where
  | opened : ConnEvent
  | closed : ConnEvent
  deriving DecidableEq, Repr

/-- run_query: open a connection, execute the read inside try, close in the
finally block — so the close happens whether the read returns a frame or
raises — and never commit, so the store component is returned unchanged.
The read itself is a pure function of the store. -/
def run_query (q : Store → Except String Table) (store : Store) :
    (Except String Table × List ConnEvent) × Store :=
  match q store with
  | Except.ok df => ((Except.ok df, [ConnEvent.opened, ConnEvent.closed]), store)
  | Except.error e => ((Except.error e, [ConnEvent.opened, ConnEvent.closed]), store)

/-- run_exec: open a connection, execute the single statement, commit, close.
There is no try block: when execution raises, the commit and the close are
never reached, the error propagates to the caller, and the store is left as
it was (the failed statement has no committed effect). -/
def run_exec (stmt : Store → Except String Store) (store : Store) :
    (Except String Unit × List ConnEvent) × Store :=
  match stmt store with
  | Except.ok s => ((Except.ok (), [ConnEvent.opened, ConnEvent.closed]), s)
  | Except.error e => ((Except.error e, [ConnEvent.opened]), store)

/-- SELECT * FROM tbl: the whole table, or the sqlite error when the table
does not exist. -/
def selectAllQuery (tbl : String) (store : Store) : Except String Table :=
  match storeGet tbl store with
  | none => Except.error ("no such table: " ++ tbl)
  | some t => Except.ok t

/-- Query 3 of the canned list: SELECT Name, Contact FROM providers WHERE
City = ?, with the city bound positionally. Errors when the table or one of
the named columns is missing; otherwise projects the matching rows. -/
def provider_contacts_query (city : String) (store : Store) : Except String Table :=
  match storeGet "providers" store with
  | none => Except.error "no such table: providers"
  | some t =>
    if t.cols.contains "Name" && t.cols.contains "Contact" && t.cols.contains "City" then
      Except.ok
        { cols := ["Name", "Contact"],
          rows :=
            (t.rows.filter (fun r => rowGet r "City" = some (Value.str city))).map
              (fun r => [("Name", (rowGet r "Name").getD Value.null),
                         ("Contact", (rowGet r "Contact").getD Value.null)]) }
    else Except.error "no such column"

/-- The row INSERT builds: one value per table column in schema order; a
column named in the column list gets its bound parameter, every other
column gets NULL. -/
def buildRow (cols : List String) (assigns : List (String × Value)) : Row :=
  cols.map (fun c => (c, ((assigns.find? (fun a => a.1 = c)).map (fun a => a.2)).getD Value.null))

/-- INSERT INTO t (...) VALUES (...): sqlite rejects a column name the table
does not have; otherwise the built row is appended. -/
def insertRow (t : Table) (assigns : List (String × Value)) : Except String Table :=
  if assigns.all (fun a => t.cols.contains a.1) then
    Except.ok { t with rows := t.rows ++ [buildRow t.cols assigns] }
  else Except.error "table claims has no column named in the insert"

/-- The bound parameters of the Make Claim insert, as built at the call
site: Food_ID and Receiver_ID from the form, the literal Pending, and the
creation timestamp. -/
def claimAssigns (foodId receiverId : Int) (ts : String) : List (String × Value) :=
  [("Food_ID", Value.int foodId), ("Receiver_ID", Value.int receiverId),
   ("Status", Value.str "Pending"), ("Timestamp", Value.str ts)]

/-- The statement of the Make Claim action: INSERT INTO claims (Food_ID,
Receiver_ID, Status, Timestamp) VALUES (?, ?, ?, ?). -/
def insert_claim_stmt (foodId receiverId : Int) (ts : String) (store : Store) :
    Except String Store :=
  match storeGet "claims" store with
  | none => Except.error "no such table: claims"
  | some t =>
    match insertRow t (claimAssigns foodId receiverId ts) with
    | Except.ok u => Except.ok (storePut "claims" u store)
    | Except.error e => Except.error e

/-- The Make Claim submit handler: the insert statement through run_exec.
The only caller inputs are the picked Food_ID, the typed Receiver_ID and
the creation instant; no status can be supplied. -/
def make_claim_submit (foodId receiverId : Int) (ts : String) (store : Store) :
    (Except String Unit × List ConnEvent) × Store :=
  run_exec (insert_claim_stmt foodId receiverId ts) store

/-- The row sweep of UPDATE claims SET Status = ? WHERE Claim_ID = ?: every
row whose Claim_ID equals the bound parameter gets its Status overwritten;
every other row is untouched. -/
def updateRows (newStatus claimId : Value) (rows : List Row) : List Row :=
  rows.map (fun r =>
    if rowGet r "Claim_ID" = some claimId then rowSet r "Status" newStatus else r)

/-- The statement of the Update Claim Status action: UPDATE claims SET
Status = ? WHERE Claim_ID = ?. Errors when the claims table or one of the
two columns is missing; otherwise rewrites Status on every matching row. -/
def update_claim_status_stmt (newStatus : Value) (claimId : Value) (store : Store) :
    Except String Store :=
  match storeGet "claims" store with
  | none => Except.error "no such table: claims"
  | some t =>
    if t.cols.contains "Status" && t.cols.contains "Claim_ID" then
      Except.ok (storePut "claims" ⟨t.cols, updateRows newStatus claimId t.rows⟩ store)
    else Except.error "no such column"

/-- The Update Claim Status handler: the update statement through run_exec;
the surrounding try/except shows a message on failure, leaving the store as
run_exec returned it. -/
def update_claim_submit (newStatus : Value) (claimId : Value) (store : Store) : Store :=
  (run_exec (update_claim_status_stmt newStatus claimId) store).2

/-- Outcome of the Dashboard / Filters data load at its call site. -/
inductive DashboardOutcome where
  | loaded : Table → DashboardOutcome
  | stopped : String → DashboardOutcome
  deriving DecidableEq, Repr

/-- The Dashboard / Filters read of food_listings: run_query inside try;
on an execution error the exception is caught, surfaced as the message
shown by st.error, and the app stops. -/
def dashboard_listings_read (store : Store) : DashboardOutcome × Store :=
  match run_query (selectAllQuery "food_listings") store with
  | ((Except.ok df, _), s) => (DashboardOutcome.loaded df, s)
  | ((Except.error e, _), s) => (DashboardOutcome.stopped ("Failed to read food_listings: " ++ e), s)

theorem storeGet_storePut_self (n : String) (t : Table) (s : Store) :
    storeGet n (storePut n t s) = some t := by
  induction s with
  | nil => simp [storePut, storeGet]
  | cons p rest ih =>
    obtain ⟨m, u⟩ := p
    by_cases h : m = n
    · simp [storePut, storeGet, h]
    · simp [storePut, storeGet, h, ih]

theorem storeGet_storePut_ne (n m : String) (t : Table) (s : Store) (h : n ≠ m) :
    storeGet m (storePut n t s) = storeGet m s := by
  induction s with
  | nil =>
    show (if n = m then some t else none) = none
    rw [if_neg h]
  | cons p rest ih =>
    obtain ⟨k, u⟩ := p
    by_cases hk : k = n
    · rw [storePut, if_pos hk]
      show (if n = m then some t else storeGet m rest) = if k = m then some u else storeGet m rest
      rw [if_neg h, if_neg (fun q => h (hk ▸ q))]
    · rw [storePut, if_neg hk]
      by_cases hm : k = m
      · show (if k = m then some u else storeGet m (storePut n t rest))
          = if k = m then some u else storeGet m rest
        rw [if_pos hm, if_pos hm]
      · show (if k = m then some u else storeGet m (storePut n t rest))
          = if k = m then some u else storeGet m rest
        rw [if_neg hm, if_neg hm, ih]

theorem storePut_storePut (n : String) (t u : Table) (s : Store) :
    storePut n u (storePut n t s) = storePut n u s := by
  induction s with
  | nil => simp [storePut]
  | cons p rest ih =>
    obtain ⟨k, w⟩ := p
    by_cases hk : k = n
    · simp [storePut, hk]
    · simp [storePut, hk, ih]

theorem rowGet_rowSet_ne (r : Row) (c c2 : String) (v : Value) (h : c ≠ c2) :
    rowGet (rowSet r c v) c2 = rowGet r c2 := by
  induction r with
  | nil => rfl
  | cons p rest ih =>
    obtain ⟨k, w⟩ := p
    by_cases hk : k = c
    · rw [rowSet, if_pos hk]
      show (if k = c2 then some v else rowGet (rowSet rest c v) c2)
        = if k = c2 then some w else rowGet rest c2
      have hk2 : ¬k = c2 := fun q => h (hk.symm.trans q)
      rw [if_neg hk2, if_neg hk2, ih]
    · rw [rowSet, if_neg hk]
      show (if k = c2 then some w else rowGet (rowSet rest c v) c2)
        = if k = c2 then some w else rowGet rest c2
      by_cases hc : k = c2
      · rw [if_pos hc, if_pos hc]
      · rw [if_neg hc, if_neg hc, ih]

theorem rowSet_rowSet (r : Row) (c : String) (v : Value) :
    rowSet (rowSet r c v) c v = rowSet r c v := by
  induction r with
  | nil => rfl
  | cons p rest ih =>
    obtain ⟨k, w⟩ := p
    by_cases hk : k = c
    · rw [rowSet, if_pos hk, rowSet, if_pos hk, ih]
    · rw [rowSet, if_neg hk, rowSet, if_neg hk, ih]

theorem rowGet_buildRow (cols : List String) (assigns : List (String × Value)) (c : String)
    (h : c ∈ cols) :
    rowGet (buildRow cols assigns) c
      = some (((assigns.find? (fun a => a.1 = c)).map (fun a => a.2)).getD Value.null) := by
  induction cols with
  | nil => cases h
  | cons k rest ih =>
    by_cases hk : k = c
    · subst hk
      simp [buildRow, rowGet]
    · rcases List.mem_cons.mp h with h2 | h2
      · exact absurd h2.symm hk
      · simpa [buildRow, rowGet, hk] using ih h2

theorem applyOkWrites_cons (f : CSVFile) (fs : List CSVFile) (s : Store) :
    applyOkWrites (f :: fs) s
      = applyOkWrites fs
          (match f.data with
           | Except.ok df => storePut (inferTable f.name) df s
           | Except.error _ => s) := rfl

theorem applyOkWrites_append (l1 l2 : List CSVFile) (s : Store) :
    applyOkWrites (l1 ++ l2) s = applyOkWrites l2 (applyOkWrites l1 s) := by
  unfold applyOkWrites
  exact List.foldl_append _ _ _ _

theorem storeGet_applyOkWrites_ne (tbl : String) (fs : List CSVFile) (s : Store)
    (h : ∀ g ∈ fs, inferTable g.name ≠ tbl) :
    storeGet tbl (applyOkWrites fs s) = storeGet tbl s := by
  revert h
  induction fs generalizing s with
  | nil => intro _; rfl
  | cons g fs ih =>
    intro h
    rw [applyOkWrites_cons]
    cases hg : g.data with
    | ok df =>
      rw [ih _ (fun x hx => h x (List.mem_cons_of_mem _ hx))]
      exact storeGet_storePut_ne _ _ _ _ (h g (List.mem_cons_self _ _))
    | error e2 =>
      exact ih _ (fun x hx => h x (List.mem_cons_of_mem _ hx))

theorem loadFiles_append_error (bad : CSVFile) (post : List CSVFile) (e : String)
    (hbad : bad.data = Except.error e) :
    ∀ (pre : List CSVFile) (store : Store) (acc : List (String × String × Nat)),
    (∀ f ∈ pre, (f.data).isOk = true) →
    loadFiles (pre ++ bad :: post) store acc
      = (LoadOutcome.failed bad.name e, applyOkWrites pre store) := by
  intro pre
  induction pre with
  | nil =>
    intro store acc _
    show loadFiles (bad :: post) store acc = _
    simp only [loadFiles, hbad]
    rfl
  | cons f pre ih =>
    intro store acc hpre
    have hf := hpre f (List.mem_cons_self _ _)
    obtain ⟨tb, htb⟩ : ∃ tb, f.data = Except.ok tb := by
      cases hd : f.data with
      | ok tb => exact ⟨tb, rfl⟩
      | error e2 =>
        rw [hd] at hf
        exact Bool.noConfusion hf
    show loadFiles (f :: (pre ++ bad :: post)) store acc = _
    simp only [loadFiles, htb]
    rw [ih _ _ (fun x hx => hpre x (List.mem_cons_of_mem _ hx))]
    rw [applyOkWrites_cons, htb]

/-- Claim C3: when some source file fails to parse or write, the load stops
at the first failing file in discovery order, returns a failure naming that
file, keeps every table written for the earlier files exactly as written
(no rollback), and processes no file after the failing one: the final store
is precisely the writes of the files before the failure. -/
theorem load_aborts_at_first_failure (pre : List CSVFile) (bad : CSVFile)
    (post : List CSVFile) (e : String) (store : Store)
    (hpre : ∀ f ∈ pre, (f.data).isOk = true) (hbad : bad.data = Except.error e) :
    create_db_from_csvs (pre ++ bad :: post) store
      = (LoadOutcome.failed bad.name e, applyOkWrites pre store)
    ∧ (∀ (l1 : List CSVFile) (f : CSVFile) (l2 : List CSVFile) (tb : Table),
        pre = l1 ++ f :: l2 → f.data = Except.ok tb →
        (∀ g ∈ l2, inferTable g.name ≠ inferTable f.name) →
        storeGet (inferTable f.name) (applyOkWrites pre store) = some tb) := by
  constructor
  · unfold create_db_from_csvs
    rw [if_neg (by simp)]
    exact loadFiles_append_error bad post e hbad pre store [] hpre
  · intro l1 f l2 tb hsplit hok hne
    subst hsplit
    rw [applyOkWrites_append, applyOkWrites_cons, hok,
      storeGet_applyOkWrites_ne _ _ _ hne]
    exact storeGet_storePut_self _ _ _

/-- Claim C3 witness: with a good providers file, then a bad food_listings
file, then a receivers file, the load fails naming the second file, the
providers table written first survives, and the receivers file is never
loaded. -/
theorem load_aborts_at_first_failure_witness :
    create_db_from_csvs
        [⟨"providers.csv", Except.ok ⟨["Provider_ID"], [[("Provider_ID", Value.int 1)]]⟩⟩,
         ⟨"food_listings.csv", Except.error "parse error"⟩,
         ⟨"receivers.csv", Except.ok ⟨["Receiver_ID"], []⟩⟩] []
      = (LoadOutcome.failed "food_listings.csv" "parse error",
         [("providers", ⟨["Provider_ID"], [[("Provider_ID", Value.int 1)]]⟩)])
    ∧ storeGet "providers"
        [("providers", ⟨["Provider_ID"], [[("Provider_ID", Value.int 1)]]⟩)]
      = some ⟨["Provider_ID"], [[("Provider_ID", Value.int 1)]]⟩ :=
  ⟨(load_aborts_at_first_failure
      [⟨"providers.csv", Except.ok ⟨["Provider_ID"], [[("Provider_ID", Value.int 1)]]⟩⟩]
      ⟨"food_listings.csv", Except.error "parse error"⟩
      [⟨"receivers.csv", Except.ok ⟨["Receiver_ID"], []⟩⟩] "parse error" []
      (by decide) rfl).1,
   (load_aborts_at_first_failure
      [⟨"providers.csv", Except.ok ⟨["Provider_ID"], [[("Provider_ID", Value.int 1)]]⟩⟩]
      ⟨"food_listings.csv", Except.error "parse error"⟩
      [⟨"receivers.csv", Except.ok ⟨["Receiver_ID"], []⟩⟩] "parse error" []
      (by decide) rfl).2
     [] ⟨"providers.csv", Except.ok ⟨["Provider_ID"], [[("Provider_ID", Value.int 1)]]⟩⟩ []
     ⟨["Provider_ID"], [[("Provider_ID", Value.int 1)]]⟩ rfl rfl (by simp)⟩

/-- Claim C4: loading a set of parseable files carrying the four recognized
name patterns succeeds, reports for each file a row count equal to the row
count of its parsed content, writes exactly the four expected tables (when
the store starts absent), and replaces any pre-existing table of the same
name entirely with the new content. -/
theorem load_four_patterns (fp fr fl fc : CSVFile) (tp tr tl tc : Table) (store : Store)
    (hp : inferTable fp.name = "providers") (hdp : fp.data = Except.ok tp)
    (hr : inferTable fr.name = "receivers") (hdr : fr.data = Except.ok tr)
    (hl : inferTable fl.name = "food_listings") (hdl : fl.data = Except.ok tl)
    (hc : inferTable fc.name = "claims") (hdc : fc.data = Except.ok tc) :
    ∃ s : Store,
      create_db_from_csvs [fp, fr, fl, fc] store
        = (LoadOutcome.ok
            [(fp.name, "providers", tp.rows.length), (fr.name, "receivers", tr.rows.length),
             (fl.name, "food_listings", tl.rows.length), (fc.name, "claims", tc.rows.length)], s)
      ∧ storeGet "providers" s = some tp
      ∧ storeGet "receivers" s = some tr
      ∧ storeGet "food_listings" s = some tl
      ∧ storeGet "claims" s = some tc
      ∧ (store = [] →
          storeTables s = ["providers", "receivers", "food_listings", "claims"]) := by
  refine ⟨storePut "claims" tc (storePut "food_listings" tl
      (storePut "receivers" tr (storePut "providers" tp store))), ?_, ?_, ?_, ?_, ?_, ?_⟩
  · unfold create_db_from_csvs
    rw [if_neg (by simp)]
    simp only [loadFiles, hdp, hdr, hdl, hdc, hp, hr, hl, hc, List.reverse_cons,
      List.reverse_nil, List.nil_append, List.cons_append, List.append_nil]
  · rw [storeGet_storePut_ne _ _ _ _ (by decide), storeGet_storePut_ne _ _ _ _ (by decide),
      storeGet_storePut_ne _ _ _ _ (by decide)]
    exact storeGet_storePut_self _ _ _
  · rw [storeGet_storePut_ne _ _ _ _ (by decide), storeGet_storePut_ne _ _ _ _ (by decide)]
    exact storeGet_storePut_self _ _ _
  · rw [storeGet_storePut_ne _ _ _ _ (by decide)]
    exact storeGet_storePut_self _ _ _
  · exact storeGet_storePut_self _ _ _
  · intro h
    subst h
    rfl

/-- Claim C4 witness: the spec example — providers_list.csv with one row
loads into table providers with one row, alongside the other three
patterns, starting from an absent store. -/
theorem load_four_patterns_witness :
    (create_db_from_csvs
        [⟨"providers_list.csv", Except.ok ⟨["Provider_ID", "Name", "City", "Contact"],
           [[("Provider_ID", Value.int 1), ("Name", Value.str "A Co"),
             ("City", Value.str "Delhi"), ("Contact", Value.str "x@a.com")]]⟩⟩,
         ⟨"receivers.csv", Except.ok ⟨["Receiver_ID", "Name", "City"], []⟩⟩,
         ⟨"food_listings.csv", Except.ok ⟨["Food_ID"], []⟩⟩,
         ⟨"claims.csv", Except.ok ⟨["Claim_ID"], []⟩⟩] []).1
      = LoadOutcome.ok
          [("providers_list.csv", "providers", 1), ("receivers.csv", "receivers", 0),
           ("food_listings.csv", "food_listings", 0), ("claims.csv", "claims", 0)] := by
  obtain ⟨s, h1, -⟩ := load_four_patterns
    ⟨"providers_list.csv", Except.ok ⟨["Provider_ID", "Name", "City", "Contact"],
       [[("Provider_ID", Value.int 1), ("Name", Value.str "A Co"),
         ("City", Value.str "Delhi"), ("Contact", Value.str "x@a.com")]]⟩⟩
    ⟨"receivers.csv", Except.ok ⟨["Receiver_ID", "Name", "City"], []⟩⟩
    ⟨"food_listings.csv", Except.ok ⟨["Food_ID"], []⟩⟩
    ⟨"claims.csv", Except.ok ⟨["Claim_ID"], []⟩⟩
    ⟨["Provider_ID", "Name", "City", "Contact"],
       [[("Provider_ID", Value.int 1), ("Name", Value.str "A Co"),
         ("City", Value.str "Delhi"), ("Contact", Value.str "x@a.com")]]⟩
    ⟨["Receiver_ID", "Name", "City"], []⟩ ⟨["Food_ID"], []⟩ ⟨["Claim_ID"], []⟩ []
    (by decide) rfl (by decide) rfl (by decide) rfl (by decide) rfl
  rw [h1]
  rfl

/-- Claim C10: when all four required tables already exist in the store, the
readiness check returns ready immediately and leaves the store completely
unchanged; in particular the CSV load is not re-run even when CSV source
files are present, so no existing table content is overwritten. -/
theorem ensure_data_ready_frame (csvs : List CSVFile) (store : Store)
    (h : required.all (fun t => (inspect_db store).contains t) = true) :
    ensure_data csvs store = (EnsureOutcome.readyPresent, store) := by
  unfold ensure_data
  simp only [h, if_pos]

/-- Claim C10 witness: a store holding the four tables stays untouched and
is reported ready, even though a CSV file (here one that would fail to
parse) is present. -/
theorem ensure_data_ready_frame_witness :
    ensure_data [⟨"claims.csv", Except.error "boom"⟩]
        [("providers", ⟨["Provider_ID"], []⟩), ("receivers", ⟨["Receiver_ID"], []⟩),
         ("food_listings", ⟨["Food_ID"], []⟩), ("claims", ⟨["Claim_ID"], []⟩)]
      = (EnsureOutcome.readyPresent,
         [("providers", ⟨["Provider_ID"], []⟩), ("receivers", ⟨["Receiver_ID"], []⟩),
          ("food_listings", ⟨["Food_ID"], []⟩), ("claims", ⟨["Claim_ID"], []⟩)]) :=
  ensure_data_ready_frame _ _ (by decide)

/-- Claim C1: the readiness check returns ready when all four required
tables exist; when some are missing it attempts the CSV load and returns
ready on success; and when no CSV source file exists it returns an unready
state naming every missing required table — all four when the store is
absent (the empty store). -/
theorem ensure_data_readiness :
    (∀ (csvs : List CSVFile) (store : Store),
      required.all (fun t => (inspect_db store).contains t) = true →
      ensure_data csvs store = (EnsureOutcome.readyPresent, store))
    ∧ (∀ (csvs : List CSVFile) (store : Store) (info : List (String × String × Nat)) (s : Store),
      required.all (fun t => (inspect_db store).contains t) = false →
      csvs.isEmpty = false →
      create_db_from_csvs csvs store = (LoadOutcome.ok info, s) →
      ensure_data csvs store = (EnsureOutcome.readyLoaded info, s))
    ∧ (∀ (csvs : List CSVFile) (store : Store),
      required.all (fun t => (inspect_db store).contains t) = false →
      csvs.isEmpty = true →
      ∃ m, ensure_data csvs store = (EnsureOutcome.missingTables m, store)
        ∧ ∀ t, t ∈ required → t ∉ inspect_db store → t ∈ m)
    ∧ ensure_data [] [] = (EnsureOutcome.missingTables required, []) := by
  refine ⟨?_, ?_, ?_, by decide⟩
  · intro csvs store h
    unfold ensure_data
    simp only [h, if_pos]
  · intro csvs store info s h h2 h3
    unfold ensure_data
    simp only [h, h2, if_neg, Bool.false_eq_true, if_false, if_true, h3]
  · intro csvs store h h2
    refine ⟨required.filter (fun t => !((inspect_db store).contains t)), ?_, ?_⟩
    · unfold ensure_data
      rw [if_neg (fun q => Bool.noConfusion (h.symm.trans q)),
        if_neg (fun q => Bool.noConfusion (h2.symm.trans q))]
    · intro t ht hm
      simp only [List.mem_filter, Bool.not_eq_eq_eq_not, Bool.not_true]
      refine ⟨ht, ?_⟩
      simpa using hm

/-- Claim C1 witness: the ready branch on a populated store, and the
successful-load branch on an empty store with one parseable CSV. -/
theorem ensure_data_readiness_witness :
    ensure_data [] [("providers", ⟨["Provider_ID"], []⟩), ("receivers", ⟨["Receiver_ID"], []⟩),
        ("food_listings", ⟨["Food_ID"], []⟩), ("claims", ⟨["Claim_ID"], []⟩)]
      = (EnsureOutcome.readyPresent,
         [("providers", ⟨["Provider_ID"], []⟩), ("receivers", ⟨["Receiver_ID"], []⟩),
          ("food_listings", ⟨["Food_ID"], []⟩), ("claims", ⟨["Claim_ID"], []⟩)])
    ∧ ensure_data [⟨"claims.csv", Except.ok ⟨["Claim_ID"], []⟩⟩] []
      = (EnsureOutcome.readyLoaded [("claims.csv", "claims", 0)],
         [("claims", ⟨["Claim_ID"], []⟩)]) :=
  ⟨ensure_data_readiness.1 _ _ (by decide),
   ensure_data_readiness.2.1 _ _ _ _ (by decide) (by decide) (by decide)⟩

/-- Claim C2 counterexample: the filename listings.csv contains the
substring listing, yet the loader maps it to a table named listings (its
filename stem), not to food_listings as the claim states. -/
theorem infer_table_listing_counterexample :
    strContains (strToLower "listings.csv") "listing" = true
    ∧ inferTable "listings.csv" ≠ "food_listings"
    ∧ inferTable "listings.csv" = "listings" :=
  ⟨by decide, by decide, by decide⟩

/-- Claim C2 amended: the loader tests substrings of the lowercased
filename in the source order food_list, provider, receiver, claim — not
provider first — and the recognized listing pattern is food_list only;
any filename matching none of the four maps to its stem. -/
theorem infer_table_priority (f : String) :
    (strContains (strToLower f) "food_list" = true → inferTable f = "food_listings")
    ∧ (strContains (strToLower f) "food_list" = false →
       strContains (strToLower f) "provider" = true → inferTable f = "providers")
    ∧ (strContains (strToLower f) "food_list" = false →
       strContains (strToLower f) "provider" = false →
       strContains (strToLower f) "receiver" = true → inferTable f = "receivers")
    ∧ (strContains (strToLower f) "food_list" = false →
       strContains (strToLower f) "provider" = false →
       strContains (strToLower f) "receiver" = false →
       strContains (strToLower f) "claim" = true → inferTable f = "claims")
    ∧ (strContains (strToLower f) "food_list" = false →
       strContains (strToLower f) "provider" = false →
       strContains (strToLower f) "receiver" = false →
       strContains (strToLower f) "claim" = false → inferTable f = splitextStem f) := by
  unfold inferTable
  refine ⟨?_, ?_, ?_, ?_, ?_⟩ <;> intros <;> simp_all

/-- Claim C2 amended witness: a food_list filename is recognized, while
listings.csv matches no pattern and falls back to its stem. -/
theorem infer_table_priority_witness :
    inferTable "food_listings.csv" = "food_listings"
    ∧ inferTable "listings.csv" = splitextStem "listings.csv" :=
  ⟨(infer_table_priority "food_listings.csv").1 (by decide),
   (infer_table_priority "listings.csv").2.2.2.2 (by decide) (by decide) (by decide) (by decide)⟩

/-- Claim C5: every claim row inserted through the Make Claim path has
Status Pending: when the submit succeeds, the claims table gains exactly
one row, built from the four bound parameters, and its Status field is the
literal Pending; the path accepts no caller-supplied status. -/
theorem claim_insert_status_pending (foodId receiverId : Int) (ts : String)
    (store : Store) (t : Table)
    (ht : storeGet "claims" store = some t)
    (hok : (make_claim_submit foodId receiverId ts store).1.1 = Except.ok ()) :
    storeGet "claims" (make_claim_submit foodId receiverId ts store).2
      = some { cols := t.cols,
               rows := t.rows ++ [buildRow t.cols (claimAssigns foodId receiverId ts)] }
    ∧ rowGet (buildRow t.cols (claimAssigns foodId receiverId ts)) "Status"
      = some (Value.str "Pending") := by
  cases hall : (claimAssigns foodId receiverId ts).all (fun a => t.cols.contains a.1) with
  | false =>
    exfalso
    have hs : insert_claim_stmt foodId receiverId ts store
        = Except.error "table claims has no column named in the insert" := by
      simp only [insert_claim_stmt, insertRow, ht, hall, Bool.false_eq_true, if_false]
    have hmain : (make_claim_submit foodId receiverId ts store).1.1
        = Except.error "table claims has no column named in the insert" := by
      unfold make_claim_submit run_exec
      rw [hs]
    rw [hmain] at hok
    exact Except.noConfusion hok
  | true =>
    have hs : insert_claim_stmt foodId receiverId ts store
        = Except.ok (storePut "claims"
            { cols := t.cols,
              rows := t.rows ++ [buildRow t.cols (claimAssigns foodId receiverId ts)] } store) := by
      simp only [insert_claim_stmt, insertRow, ht, hall, if_true]
    constructor
    · have h2 : (make_claim_submit foodId receiverId ts store).2
          = storePut "claims"
              { cols := t.cols,
                rows := t.rows ++ [buildRow t.cols (claimAssigns foodId receiverId ts)] } store := by
        unfold make_claim_submit run_exec
        rw [hs]
      rw [h2]
      exact storeGet_storePut_self _ _ _
    · have hmem : "Status" ∈ t.cols := by
        have h3 := List.all_eq_true.mp hall ("Status", Value.str "Pending") (by simp [claimAssigns])
        simpa using h3
      rw [rowGet_buildRow _ _ _ hmem]
      rfl

/-- Claim C5 witness: a concrete claims table gains the one row with
Status Pending (and NULL Claim_ID, since the insert names no Claim_ID). -/
theorem claim_insert_status_pending_witness :
    storeGet "claims"
        (make_claim_submit 1 2 "2026-10-12T00:00:00"
          [("claims", ⟨["Claim_ID", "Food_ID", "Receiver_ID", "Status", "Timestamp"], []⟩)]).2
      = some ⟨["Claim_ID", "Food_ID", "Receiver_ID", "Status", "Timestamp"],
          [[("Claim_ID", Value.null), ("Food_ID", Value.int 1), ("Receiver_ID", Value.int 2),
            ("Status", Value.str "Pending"), ("Timestamp", Value.str "2026-10-12T00:00:00")]]⟩
    ∧ rowGet (buildRow ["Claim_ID", "Food_ID", "Receiver_ID", "Status", "Timestamp"]
          (claimAssigns 1 2 "2026-10-12T00:00:00")) "Status"
      = some (Value.str "Pending") :=
  claim_insert_status_pending 1 2 "2026-10-12T00:00:00"
    [("claims", ⟨["Claim_ID", "Food_ID", "Receiver_ID", "Status", "Timestamp"], []⟩)]
    ⟨["Claim_ID", "Food_ID", "Receiver_ID", "Status", "Timestamp"], []⟩ rfl rfl

theorem updateRows_idem (v claimId : Value) (rows : List Row) :
    updateRows v claimId (updateRows v claimId rows) = updateRows v claimId rows := by
  unfold updateRows
  rw [List.map_map]
  apply List.map_congr_left
  intro r _
  simp only [Function.comp_apply]
  by_cases hr : rowGet r "Claim_ID" = some claimId
  · rw [if_pos hr]
    have h2 : rowGet (rowSet r "Status" v) "Claim_ID" = some claimId := by
      rw [rowGet_rowSet_ne r "Status" "Claim_ID" v (by decide)]
      exact hr
    rw [if_pos h2, rowSet_rowSet]
  · rw [if_neg hr, if_neg hr]

/-- Claim C6: updating the Status of a claim to Completed is idempotent:
for every store state and every Claim_ID, running the Update Claim Status
action twice in succession leaves the same final store as running it once
(including the stores where the statement raises and the handler catches). -/
theorem update_completed_idempotent (claimId : Value) (store : Store) :
    update_claim_submit (Value.str "Completed") claimId
        (update_claim_submit (Value.str "Completed") claimId store)
      = update_claim_submit (Value.str "Completed") claimId store := by
  cases hg : storeGet "claims" store with
  | none =>
    have hs : update_claim_status_stmt (Value.str "Completed") claimId store
        = Except.error "no such table: claims" := by
      unfold update_claim_status_stmt
      rw [hg]
    have h1 : update_claim_submit (Value.str "Completed") claimId store = store := by
      unfold update_claim_submit run_exec
      rw [hs]
    rw [h1]
    exact h1
  | some t =>
    cases hcond : (t.cols.contains "Status" && t.cols.contains "Claim_ID") with
    | false =>
      have hs : update_claim_status_stmt (Value.str "Completed") claimId store
          = Except.error "no such column" := by
        simp only [update_claim_status_stmt, hg, hcond, Bool.false_eq_true, if_false]
      have h1 : update_claim_submit (Value.str "Completed") claimId store = store := by
        unfold update_claim_submit run_exec
        rw [hs]
      rw [h1]
      exact h1
    | true =>
      have hs : update_claim_status_stmt (Value.str "Completed") claimId store
          = Except.ok (storePut "claims"
              ⟨t.cols, updateRows (Value.str "Completed") claimId t.rows⟩ store) := by
        simp only [update_claim_status_stmt, hg, hcond, if_true]
      have h1 : update_claim_submit (Value.str "Completed") claimId store
          = storePut "claims"
              ⟨t.cols, updateRows (Value.str "Completed") claimId t.rows⟩ store := by
        unfold update_claim_submit run_exec
        rw [hs]
      rw [h1]
      have hs2 : update_claim_status_stmt (Value.str "Completed") claimId
          (storePut "claims" ⟨t.cols, updateRows (Value.str "Completed") claimId t.rows⟩ store)
          = Except.ok (storePut "claims"
              ⟨t.cols, updateRows (Value.str "Completed") claimId t.rows⟩ store) := by
        simp only [update_claim_status_stmt, storeGet_storePut_self, hcond, if_true,
          updateRows_idem, storePut_storePut]
      unfold update_claim_submit run_exec
      rw [hs2]

/-- Claim C7 counterexample: a run_exec call whose statement raises (here,
UPDATE on a store with no claims table) performs only the connection open;
no close event occurs, so the connection outlives the call. -/
theorem run_exec_error_leaks_connection :
    (run_exec (update_claim_status_stmt (Value.str "Completed") (Value.int 1)) []).1.2
      = [ConnEvent.opened]
    ∧ ConnEvent.closed ∉
      (run_exec (update_claim_status_stmt (Value.str "Completed") (Value.int 1)) []).1.2 :=
  ⟨rfl, by decide⟩

/-- Claim C7 amended: run_query opens a fresh connection and closes it on
both the success and the error path; run_exec opens a fresh connection and
closes it after the commit on the success path, but when statement
execution raises, the close is never reached. -/
theorem gateway_connection_lifecycle (q : Store → Except String Table)
    (stmt : Store → Except String Store) (s1 s2 : Store) :
    (run_query q s1).1.2 = [ConnEvent.opened, ConnEvent.closed]
    ∧ (run_exec stmt s2).1.2
      = (match stmt s2 with
         | Except.ok _ => [ConnEvent.opened, ConnEvent.closed]
         | Except.error _ => [ConnEvent.opened]) := by
  constructor
  · unfold run_query
    cases q s1 <;> rfl
  · unfold run_exec
    cases stmt s2 <;> rfl

/-- Claim C8: a parameterized read whose filter matches no row of the
queried table returns an empty result set through run_query, not an
error. -/
theorem empty_filter_read_ok (city : String) (store : Store) (t : Table)
    (ht : storeGet "providers" store = some t)
    (hn : t.cols.contains "Name" = true) (hc : t.cols.contains "Contact" = true)
    (hy : t.cols.contains "City" = true)
    (hz : ∀ r ∈ t.rows, ¬rowGet r "City" = some (Value.str city)) :
    (run_query (provider_contacts_query city) store).1.1
      = Except.ok { cols := ["Name", "Contact"], rows := [] } := by
  have hq : provider_contacts_query city store
      = Except.ok { cols := ["Name", "Contact"], rows := [] } := by
    simp only [provider_contacts_query, ht]
    rw [if_pos (by rw [hn, hc, hy]; rfl)]
    have hfil : t.rows.filter (fun r => rowGet r "City" = some (Value.str city)) = [] := by
      rw [List.filter_eq_nil_iff]
      intro a ha
      simpa using hz a ha
    rw [hfil]
    rfl
  unfold run_query
  rw [hq]

/-- Claim C8 witness: one provider in Delhi, queried for Mumbai, yields the
empty Name-Contact result. -/
theorem empty_filter_read_ok_witness :
    (run_query (provider_contacts_query "Mumbai")
        [("providers", ⟨["Name", "Contact", "City"],
          [[("Name", Value.str "A Co"), ("Contact", Value.str "x@a.com"),
            ("City", Value.str "Delhi")]]⟩)]).1.1
      = Except.ok { cols := ["Name", "Contact"], rows := [] } :=
  empty_filter_read_ok "Mumbai"
    [("providers", ⟨["Name", "Contact", "City"],
      [[("Name", Value.str "A Co"), ("Contact", Value.str "x@a.com"),
        ("City", Value.str "Delhi")]]⟩)]
    ⟨["Name", "Contact", "City"],
      [[("Name", Value.str "A Co"), ("Contact", Value.str "x@a.com"),
        ("City", Value.str "Delhi")]]⟩
    rfl rfl rfl rfl (by decide)

/-- Claim C9: the Dashboard read of food_listings leaves the store exactly
as it was, on the error path and on the success path alike; an execution
error is caught at the call site and surfaced as the user-facing message;
and no run_query call ever changes the store (reads never commit). -/
theorem dashboard_read_error_surfaced :
    (∀ store : Store, (dashboard_listings_read store).2 = store)
    ∧ (∀ (store : Store) (e : String),
        selectAllQuery "food_listings" store = Except.error e →
        (dashboard_listings_read store).1
          = DashboardOutcome.stopped ("Failed to read food_listings: " ++ e))
    ∧ (∀ (store : Store) (t : Table),
        selectAllQuery "food_listings" store = Except.ok t →
        (dashboard_listings_read store).1 = DashboardOutcome.loaded t)
    ∧ (∀ (q : Store → Except String Table) (store : Store), (run_query q store).2 = store) := by
  refine ⟨?_, ?_, ?_, ?_⟩
  · intro store
    unfold dashboard_listings_read run_query
    cases selectAllQuery "food_listings" store <;> rfl
  · intro store e h
    unfold dashboard_listings_read run_query
    rw [h]
  · intro store t h
    unfold dashboard_listings_read run_query
    rw [h]
  · intro q store
    unfold run_query
    cases q store <;> rfl

/-- Claim C9 witness: on the empty store the read errors, the message names
the failure, and the store is unchanged. -/
theorem dashboard_read_error_surfaced_witness :
    (dashboard_listings_read []).1
      = DashboardOutcome.stopped "Failed to read food_listings: no such table: food_listings"
    ∧ (dashboard_listings_read []).2 = [] :=
  ⟨dashboard_read_error_surfaced.2.1 [] "no such table: food_listings" rfl,
   dashboard_read_error_surfaced.1 []⟩

end FoodWaste
